import Mathlib

set_option autoImplicit false
set_option maxHeartbeats 1000000

/-!
Verification development for the generator core of the `gopter` property-based
testing library.  The Go sources `gen.go` and `gen_parameters.go` are shallowly
embedded below: Go's dynamically typed `interface{}` values become the inductive
`GoVal`, `reflect.Type` descriptors become `GoType`, the mutable random source
`*rand.Rand` becomes an explicit stream of `Int63` draws with a cursor, and the
pointer-threaded `*GenParameters` becomes explicit state passing (every
generator returns the advanced parameters next to its result).  A second,
store-based embedding (`GenRef`) makes heap allocation and in-place mutation of
`GenResult` objects observable, for the claims about result freshness.
-/

/-- Kinds of Go runtime types, as classified by `reflect.Kind`. -/
inductive GoKind where
  | funcK
  | boolK
  | int64K
  | sliceK
  | interfaceK
  | stringK
  | otherK
deriving DecidableEq, Repr

/-- The Go type descriptors (`reflect.Type`) occurring in the generator core. -/
inductive GoType where
  | int64
  | boolT
  | stringT
  | sliceOfInterface
  | interfaceEmpty
  | named (s : String)
deriving DecidableEq, Repr

/-- The `reflect.Kind` of a modelled Go type. -/
def GoType.kind : GoType → GoKind
  | .int64 => .int64K
  | .boolT => .boolK
  | .stringT => .stringK
  | .sliceOfInterface => .sliceK
  | .interfaceEmpty => .interfaceK
  | .named _ => .otherK

/-- Go assignability (`reflect.Type.AssignableTo`) restricted to the types
modelled here: a type is assignable to itself, and every type is assignable to
the empty interface `interface{}`. -/
def AssignableTo (t u : GoType) : Bool :=
  t == u || u == GoType.interfaceEmpty

/-- Dynamically typed Go values (`interface{}`) handled by generators. -/
inductive GoVal where
  | int (n : Int)
  | bool (b : Bool)
  | str (s : String)
  | slice (elems : List GoVal)

/-- The Shrinker function type.  The `shrink.go` file of the repository is not
part of the given sources; per the spec a shrinker is a pure function from a
value to a (lazily produced, here: listed) finite sequence of simpler values. -/
abbrev Shrinker := GoVal → List GoVal

/-- Modelled from the spec: `NoShrinker` (defined outside the given sources) is
the canonical no-op shrinker, which "yields an empty sequence for any input". -/
def NoShrinker : Shrinker := fun _ => []

/-- `GenParameters` from `gen_parameters.go`.  The `Rng *rand.Rand` field is
modelled as an infinite stream of `Int63` draws (`rngStream`, each draw taken
modulo `2^63` to respect the non-negative 63-bit range of `rand.Int63`)
together with a cursor `rngPos`; advancing the cursor models the mutation of
the random source's internal state. -/
structure GenParameters where
  Size : Nat
  MaxShrinkCount : Nat
  rngStream : Nat → Nat
  rngPos : Nat

/-- One draw of `p.Rng.Int63()`: a value in `[0, 2^63)` plus the advanced
source state. -/
def GenParameters.Int63 (p : GenParameters) : Nat × GenParameters :=
  (p.rngStream p.rngPos % 2 ^ 63, { p with rngPos := p.rngPos + 1 })

/-- `GenParameters.WithSize` from the source: a copy with the new size. -/
def GenParameters.WithSize (p : GenParameters) (size : Nat) : GenParameters :=
  { p with Size := size }

/-- `GenParameters.NextBool` from the source: `p.Rng.Int63()&1 == 0`. -/
def GenParameters.NextBool (p : GenParameters) : Bool × GenParameters :=
  let vp := p.Int63
  (vp.1 % 2 == 0, vp.2)

/-- `GenParameters.NextInt64` from the source: draw `v := p.Rng.Int63()`, then
negate it iff `p.NextBool()` yields true. -/
def GenParameters.NextInt64 (p : GenParameters) : Int × GenParameters :=
  let vp := p.Int63
  let bp := vp.2.NextBool
  (if bp.1 then -(vp.1 : Int) else (vp.1 : Int), bp.2)

/-- `GenParameters.NextUint64` from the source: two `Int63` draws mixed by
`(first << 1) ^ second`, a 64-bit value. -/
def GenParameters.NextUint64 (p : GenParameters) : Nat × GenParameters :=
  let fp := p.Int63
  let sp := fp.2.Int63
  ((fp.1 <<< 1) ^^^ sp.1, sp.2)

/-- `DefaultGenParameters` from the source: size 100, shrink budget 1000, and a
random source seeded from the current wall-clock time.  The time-dependent
seeded source is abstracted as the `seededRng` argument (its cursor starts
at 0). -/
def DefaultGenParameters (seededRng : Nat → Nat) : GenParameters :=
  { Size := 100, MaxShrinkCount := 1000, rngStream := seededRng, rngPos := 0 }

/-- `GenResult` from `gen_result.go` (a file of this repository that is not
among the given sources; the fields are exactly the ones used by `gen.go`:
`Shrinker`, `result`, `Labels`, `ResultType`, `Sieve`).  `result` is a nilable
`interface{}`, `Sieve` a nilable predicate, `Shrinker` a nilable shrinker. -/
structure GenResult where
  result : Option GoVal
  Labels : List String
  ResultType : GoType
  Sieve : Option (GoVal → Bool)
  Shrinker : Option Shrinker

/-- Whether the result's sieve (when present) accepts a value; an absent sieve
accepts everything. -/
def GenResult.sieveAccepts (r : GenResult) (v : GoVal) : Bool :=
  match r.Sieve with
  | none => true
  | some s => s v

/-- Modelled from the spec: `GenResult.Retrieve` lives in `gen_result.go`,
which is not among the given sources.  Per the spec, retrieval "applies the
sieve (fails returning no sample if unsatisfied)" and an absent value signals
generation failure, so it yields the value exactly when one is present and the
sieve (when present) accepts it. -/
def GenResult.Retrieve (r : GenResult) : Option GoVal :=
  match r.result with
  | none => none
  | some v => if r.sieveAccepts v then some v else none

/-- Modelled from the spec: `GenResult.RetrieveAsValue` (also in the missing
`gen_result.go`) is the `reflect.Value` variant of `Retrieve`, with the same
value-presence and sieve semantics. -/
def GenResult.RetrieveAsValue (r : GenResult) : Option GoVal :=
  r.Retrieve

/-- `Gen` from the source: a function from parameters to a result.  The Go
function mutates the random source behind the `*GenParameters` pointer, so the
embedding returns the advanced parameters next to the produced result. -/
abbrev Gen := GenParameters → GenResult × GenParameters

/-- `Gen.WithLabel` from the source: invoke the inner generator, append the
label to the result's `Labels`, and hand the result back. -/
def Gen.WithLabel (g : Gen) (label : String) : Gen :=
  fun genParams =>
    let rp := g genParams
    ({ rp.1 with Labels := rp.1.Labels ++ [label] }, rp.2)

/-- The generation-time closure returned by `Gen.SuchThat` (the anonymous
`func(genParams *GenParameters) *GenResult` in the source), with `sieve` the
closure over the reflective call of the user predicate: the new sieve is
conjoined with any pre-existing sieve of the inner result. -/
def Gen.SuchThatGen (g : Gen) (sieve : GoVal → Bool) : Gen :=
  fun genParams =>
    let rp := g genParams
    match rp.1.Sieve with
    | none => ({ rp.1 with Sieve := some sieve }, rp.2)
    | some prevSieve =>
        ({ rp.1 with Sieve := some (fun value => prevSieve value && sieve value) }, rp.2)

/-- `Gen.WithShrinker` from the source: override the result's shrinker with
the supplied one, or with `NoShrinker` when `nil` is supplied. -/
def Gen.WithShrinker (g : Gen) (shrinker : Option Shrinker) : Gen :=
  fun genParams =>
    let rp := g genParams
    match shrinker with
    | none => ({ rp.1 with Shrinker := some NoShrinker }, rp.2)
    | some s => ({ rp.1 with Shrinker := some s }, rp.2)

/-- The generation-time closure returned by `Gen.Map` (the anonymous func in
the source): `mapper` is the call of the user function through reflection and
`outType` the captured `mapperType.Out(0)`.  On a retrievable inner value the
fresh result carries the mapped value, the inner labels, the captured return
type, no sieve and the no-op shrinker; otherwise the fresh result is the
absent-value result with the same labels and type handling. -/
def Gen.MapGen (g : Gen) (mapper : GoVal → GoVal) (outType : GoType) : Gen :=
  fun genParams =>
    let rp := g genParams
    match rp.1.RetrieveAsValue with
    | some value =>
        ({ result := some (mapper value), Labels := rp.1.Labels, ResultType := outType,
           Sieve := none, Shrinker := some NoShrinker }, rp.2)
    | none =>
        ({ result := none, Labels := rp.1.Labels, ResultType := outType,
           Sieve := none, Shrinker := some NoShrinker }, rp.2)

/-- `Gen.FlatMap` from the source: on a retrievable inner value the value is
fed to `f` and the generator so obtained is invoked with the same parameters,
its result returned directly; on failure a fresh absent-value result carrying
the supplied `resultType` and the inner labels is returned. -/
def Gen.FlatMap (g : Gen) (f : GoVal → Gen) (resultType : GoType) : Gen :=
  fun genParams =>
    let rp := g genParams
    match rp.1.Retrieve with
    | some value => f value rp.2
    | none =>
        ({ result := none, Labels := rp.1.Labels, ResultType := resultType,
           Sieve := none, Shrinker := some NoShrinker }, rp.2)

/-- Modelled from the spec: `CombineShrinker` lives in `shrink.go`, which is
not among the given sources.  Per the spec it merges per-position shrinkers
into a shrinker over the aggregate sequence: for each position holding a
shrinker, substitute each simplified candidate for that position keeping all
other positions unchanged, concatenating the candidate lists position by
position (position 0 first). -/
def CombineShrinker (shrinkers : List (Option Shrinker)) : Shrinker :=
  fun v =>
    match v with
    | .slice values =>
        (List.range values.length).flatMap (fun i =>
          match shrinkers.get? i, values.get? i with
          | some (some s), some vi => (s vi).map (fun c => GoVal.slice (values.set i c))
          | _, _ => [])
    | _ => []

/-- The position-wise sieve check of the combined sieve in `CombineGens`: walk
the generated component values together with the recorded component sieves;
a `nil` sieve at a position accepts anything.  (In Go the loop ranges over the
value slice and indexes the sieve array; component lists of equal length —
the only case arising — are modelled exactly.) -/
def sieveCheck : List (Option (GoVal → Bool)) → List GoVal → Bool
  | some s :: rest, v :: vs => s v && sieveCheck rest vs
  | none :: rest, _ :: vs => sieveCheck rest vs
  | _, _ => true

/-- The combined sieve closure built by `CombineGens`: type-assert the
aggregate to a value slice and check every component against its sieve.  (The
Go type assertion `v.([]interface{})` fails at runtime on a non-slice, so no
non-slice value is ever accepted.) -/
def combinedSieve (sieves : List (Option (GoVal → Bool))) : GoVal → Bool :=
  fun v =>
    match v with
    | .slice values => sieveCheck sieves values
    | _ => false

/-- The loop body of `CombineGens`: invoke the generators in order with the
threaded parameters, accumulating labels, values, shrinkers and sieves.  On
the first sub-generator whose result is not retrievable, return the
absent-value result immediately, carrying that failing result's `Labels`
(the Go code puts `result.Labels`, not the accumulated `labels`, in the
failure result); on full success build the aggregate result. -/
def combineLoop : List Gen → GenParameters → List String → List GoVal →
    List (Option Shrinker) → List (Option (GoVal → Bool)) → GenResult × GenParameters
  | [], p, labels, values, shrinkers, sieves =>
      ({ result := some (GoVal.slice values), Labels := labels,
         ResultType := GoType.sliceOfInterface,
         Sieve := some (combinedSieve sieves),
         Shrinker := some (CombineShrinker shrinkers) }, p)
  | gen :: rest, p, labels, values, shrinkers, sieves =>
      let rp := gen p
      match rp.1.Retrieve with
      | some v =>
          combineLoop rest rp.2 (labels ++ rp.1.Labels) (values ++ [v])
            (shrinkers ++ [rp.1.Shrinker]) (sieves ++ [rp.1.Sieve])
      | none =>
          ({ result := none, Labels := rp.1.Labels,
             ResultType := GoType.sliceOfInterface,
             Sieve := none, Shrinker := some NoShrinker }, rp.2)

/-- `CombineGens` from the source: run the listed generators in order on the
same (threaded) parameters and aggregate their outcomes per `combineLoop`. -/
def CombineGens (gens : List Gen) : Gen :=
  fun genParams => combineLoop gens genParams [] [] [] []

/-- Sequential invocation of a list of generators with threaded parameters,
collecting each generator's result: the reference run used to state what
`CombineGens` aggregates. -/
def runGens : List Gen → GenParameters → List GenResult × GenParameters
  | [], p => ([], p)
  | g :: gs, p =>
      let rp := g p
      let rest := runGens gs rp.2
      (rp.1 :: rest.1, rest.2)

/-- Retrieval of every result in a list: `some` of the value list when every
single retrieval succeeds, `none` as soon as one fails. -/
def retrieveAll : List GenResult → Option (List GoVal)
  | [] => some []
  | r :: rs =>
      match r.Retrieve, retrieveAll rs with
      | some v, some vs => some (v :: vs)
      | _, _ => none

/-- Concatenation of the labels of a list of results, in order. -/
def allLabels : List GenResult → List String
  | [] => []
  | r :: rs => r.Labels ++ allLabels rs

/-- A Go value as inspected by reflection when passed to `SuchThat` or `Map`:
its `reflect.Kind`, its parameter and return types when it is a func, and the
callable itself (`reflect.Value.Call` on a one-in/one-out func, which is the
only shape that survives validation). -/
structure GoFuncVal where
  kind : GoKind
  inTypes : List GoType
  outTypes : List GoType
  fn : GoVal → GoVal

/-- `reflect.Value.Bool` on the value returned by a user predicate (the
validated return kind is `Bool`, so the default arm never fires for values a
validated predicate returns). -/
def goBool : GoVal → Bool
  | .bool b => b
  | _ => false

/-- Whether an `Except` holds a success. -/
def exceptOk {α : Type} : Except String α → Bool
  | .ok _ => true
  | .error _ => false

/-- `Gen.SuchThat` from the source.  The construction-time validation is run
first: the four reflective checks in source order, each failed check a panic
(modelled as `.error` with the panic message).  The probe invocation
`g(DefaultGenParameters())` happens only inside the `NumIn == 1` branch, to
read the probed result's `ResultType`; the second component counts how many
such probe invocations were performed.  `d` stands for the
`DefaultGenParameters()` object (its time seed is ambient).  On success the
generation-time closure `Gen.SuchThatGen` is returned. -/
def Gen.SuchThat (g : Gen) (d : GenParameters) (f : GoFuncVal) :
    Except String Gen × Nat :=
  if f.kind ≠ GoKind.funcK then
    (.error "Param of SuchThat has to be a func", 0)
  else if f.inTypes.length ≠ 1 then
    (.error "Param of SuchThat has to be a func with one param", 0)
  else if ¬ AssignableTo ((g d).1.ResultType) (f.inTypes.headD GoType.interfaceEmpty) then
    (.error "Param of SuchThat has to be a func with one param assignable to the result type", 1)
  else if f.outTypes.length ≠ 1 then
    (.error "Param of SuchThat has to be a func with one return value", 1)
  else if (f.outTypes.headD GoType.interfaceEmpty).kind ≠ GoKind.boolK then
    (.error "Param of SuchThat has to be a func with one return value of bool", 1)
  else
    (.ok (Gen.SuchThatGen g (fun v => goBool (f.fn v))), 1)

/-- `Gen.Map` from the source.  Validation mirrors `Gen.SuchThat` (func kind,
one parameter assignable from the probed result type, one return value — with
no constraint on the return kind); the probe count is the second component.
On success the generation-time closure `Gen.MapGen` is returned, capturing the
callable and its return type `mapperType.Out(0)`. -/
def Gen.Map (g : Gen) (d : GenParameters) (f : GoFuncVal) :
    Except String Gen × Nat :=
  if f.kind ≠ GoKind.funcK then
    (.error "Param of Map has to be a func", 0)
  else if f.inTypes.length ≠ 1 then
    (.error "Param of Map has to be a func with one param", 0)
  else if ¬ AssignableTo ((g d).1.ResultType) (f.inTypes.headD GoType.interfaceEmpty) then
    (.error "Param of Map has to be a func with one param assignable to the result type", 1)
  else if f.outTypes.length ≠ 1 then
    (.error "Param of Map has to be a func with one return value", 1)
  else
    (.ok (Gen.MapGen g f.fn (f.outTypes.headD GoType.interfaceEmpty)), 1)

/-!
The store-based embedding.  Go's `Gen` returns a `*GenResult`; to make object
identity, in-place mutation and fresh allocation observable, a `GenRef`
returns an address into an explicit store of `GenResult` cells.  Allocation
(`&GenResult{...}` in Go) appends a cell; a field assignment on a returned
pointer mutates the addressed cell in place.
-/

/-- A heap of `GenResult` objects; an address is an index into `cells`. -/
structure Store where
  cells : List GenResult

/-- Allocate a fresh cell (`&GenResult{...}` in Go): the new object's address
and the extended store. -/
def Store.alloc (s : Store) (r : GenResult) : Nat × Store :=
  (s.cells.length, ⟨s.cells ++ [r]⟩)

/-- Read the cell at an address. -/
def Store.read (s : Store) (a : Nat) : Option GenResult :=
  s.cells.get? a

/-- Mutate the cell at an address in place (a Go field assignment through a
pointer); a dangling address leaves the store unchanged (such an address is
never produced by the embedded generators). -/
def Store.mutate (s : Store) (a : Nat) (f : GenResult → GenResult) : Store :=
  match s.cells.get? a with
  | some r => ⟨s.cells.set a (f r)⟩
  | none => s

/-- The default result used when dereferencing an address that is not in the
store (never reached for generators that allocate their results). -/
def emptyResult : GenResult :=
  { result := none, Labels := [], ResultType := GoType.interfaceEmpty,
    Sieve := none, Shrinker := none }

/-- A generator in the store-based embedding: from parameters and a store to
the address of the produced `GenResult`, the advanced parameters, and the
updated store. -/
abbrev GenRef := GenParameters → Store → Nat × GenParameters × Store

/-- The field update `result.Labels = append(result.Labels, label)`. -/
def labelUpdate (label : String) (r : GenResult) : GenResult :=
  { r with Labels := r.Labels ++ [label] }

/-- The field update `result.Sieve = ...` performed by `SuchThat`: install the
new sieve, conjoined with any pre-existing one. -/
def suchThatUpdate (sieve : GoVal → Bool) (r : GenResult) : GenResult :=
  match r.Sieve with
  | none => { r with Sieve := some sieve }
  | some prevSieve => { r with Sieve := some (fun value => prevSieve value && sieve value) }

/-- The field update `result.Shrinker = ...` performed by `WithShrinker`. -/
def shrinkerUpdate (shrinker : Option Shrinker) (r : GenResult) : GenResult :=
  match shrinker with
  | none => { r with Shrinker := some NoShrinker }
  | some s => { r with Shrinker := some s }

/-- `Gen.WithLabel` in the store-based embedding: run the inner generator,
assign to the `Labels` field of the result it returned (in place), and return
that same address. -/
def Gen.WithLabelRef (g : GenRef) (label : String) : GenRef :=
  fun genParams s =>
    let aps := g genParams s
    (aps.1, aps.2.1, aps.2.2.mutate aps.1 (labelUpdate label))

/-- The `Gen.SuchThat` generation-time closure in the store-based embedding:
assign to the `Sieve` field of the inner result (in place) and return that
same address. -/
def Gen.SuchThatRef (g : GenRef) (sieve : GoVal → Bool) : GenRef :=
  fun genParams s =>
    let aps := g genParams s
    (aps.1, aps.2.1, aps.2.2.mutate aps.1 (suchThatUpdate sieve))

/-- `Gen.WithShrinker` in the store-based embedding: assign to the `Shrinker`
field of the inner result (in place) and return that same address. -/
def Gen.WithShrinkerRef (g : GenRef) (shrinker : Option Shrinker) : GenRef :=
  fun genParams s =>
    let aps := g genParams s
    (aps.1, aps.2.1, aps.2.2.mutate aps.1 (shrinkerUpdate shrinker))

/-- The `Gen.Map` generation-time closure in the store-based embedding: read
the inner result, then allocate a fresh result cell (`&GenResult{...}`) in
either branch. -/
def Gen.MapRef (g : GenRef) (mapper : GoVal → GoVal) (outType : GoType) : GenRef :=
  fun genParams s =>
    let aps := g genParams s
    let inner := (aps.2.2.read aps.1).getD emptyResult
    match inner.RetrieveAsValue with
    | some value =>
        let ns := aps.2.2.alloc
          { result := some (mapper value), Labels := inner.Labels, ResultType := outType,
            Sieve := none, Shrinker := some NoShrinker }
        (ns.1, aps.2.1, ns.2)
    | none =>
        let ns := aps.2.2.alloc
          { result := none, Labels := inner.Labels, ResultType := outType,
            Sieve := none, Shrinker := some NoShrinker }
        (ns.1, aps.2.1, ns.2)

/-- `Gen.FlatMap` in the store-based embedding: on success the continuation's
generator runs on the same parameters and store and its result address is
returned directly (no fresh cell from `FlatMap` itself); on failure a fresh
absent-value cell is allocated. -/
def Gen.FlatMapRef (g : GenRef) (f : GoVal → GenRef) (resultType : GoType) : GenRef :=
  fun genParams s =>
    let aps := g genParams s
    let inner := (aps.2.2.read aps.1).getD emptyResult
    match inner.Retrieve with
    | some value => f value aps.2.1 aps.2.2
    | none =>
        let ns := aps.2.2.alloc
          { result := none, Labels := inner.Labels, ResultType := resultType,
            Sieve := none, Shrinker := some NoShrinker }
        (ns.1, aps.2.1, ns.2)

/-- The loop of `CombineGens` in the store-based embedding: identical to
`combineLoop` except that sub-results are read from the store.  It returns the
`GenResult` object to be allocated (the Go code allocates exactly one fresh
result after the sub-runs performed so far, in both the failure and the
success branch). -/
def combineLoopRef : List GenRef → GenParameters → Store → List String → List GoVal →
    List (Option Shrinker) → List (Option (GoVal → Bool)) →
    GenResult × GenParameters × Store
  | [], p, s, labels, values, shrinkers, sieves =>
      ({ result := some (GoVal.slice values), Labels := labels,
         ResultType := GoType.sliceOfInterface,
         Sieve := some (combinedSieve sieves),
         Shrinker := some (CombineShrinker shrinkers) }, p, s)
  | gen :: rest, p, s, labels, values, shrinkers, sieves =>
      let aps := gen p s
      let r := (aps.2.2.read aps.1).getD emptyResult
      match r.Retrieve with
      | some v =>
          combineLoopRef rest aps.2.1 aps.2.2 (labels ++ r.Labels) (values ++ [v])
            (shrinkers ++ [r.Shrinker]) (sieves ++ [r.Sieve])
      | none =>
          ({ result := none, Labels := r.Labels,
             ResultType := GoType.sliceOfInterface,
             Sieve := none, Shrinker := some NoShrinker }, aps.2.1, aps.2.2)

/-- `CombineGens` in the store-based embedding: run the loop, then allocate
the one fresh result cell it computed. -/
def CombineGensRef (gens : List GenRef) : GenRef :=
  fun genParams s =>
    let rps := combineLoopRef gens genParams s [] [] [] []
    let ns := rps.2.2.alloc rps.1
    (ns.1, rps.2.1, ns.2)

/-!  Concrete fixtures used by witnesses and counterexamples. -/

/-- Concrete parameters whose random stream is constantly zero. -/
def pZero : GenParameters :=
  { Size := 100, MaxShrinkCount := 1000, rngStream := fun _ => 0, rngPos := 0 }

/-- Parameters whose source next yields magnitude 5 and then an even draw
(so `NextBool` yields true). -/
def pMag5Even : GenParameters :=
  { Size := 100, MaxShrinkCount := 1000,
    rngStream := fun i => if i = 0 then 5 else 0, rngPos := 0 }

/-- Parameters whose source next yields magnitude 5 and then an odd draw
(so `NextBool` yields false). -/
def pMag5Odd : GenParameters :=
  { Size := 100, MaxShrinkCount := 1000,
    rngStream := fun i => if i = 0 then 5 else 1, rngPos := 0 }

/-- A leaf generator always succeeding with value `v` and labels `ls`. -/
def genConst (v : GoVal) (ls : List String) : Gen :=
  fun genParams =>
    ({ result := some v, Labels := ls, ResultType := GoType.int64,
       Sieve := none, Shrinker := none }, genParams)

/-- A leaf generator that always fails (absent value), with labels `ls`. -/
def genFail (ls : List String) : Gen :=
  fun genParams =>
    ({ result := none, Labels := ls, ResultType := GoType.int64,
       Sieve := none, Shrinker := none }, genParams)

/-- A leaf generator whose result carries an always-rejecting sieve. -/
def genSieved : Gen :=
  fun genParams =>
    ({ result := some (GoVal.int 1), Labels := [], ResultType := GoType.int64,
       Sieve := some (fun _ => false), Shrinker := none }, genParams)

/-- A mapping function on Go values: increment an integer. -/
def incInt : GoVal → GoVal
  | .int n => .int (n + 1)
  | v => v

/-- Claim C9: if the underlying source next yields magnitude 5 and the
subsequent `NextBool` draw yields true, `NextInt64` returns -5; if that
`NextBool` draw yields false, it returns 5 (magnitude first, then sign). -/
theorem nextInt64_magnitude_then_sign (p : GenParameters)
    (hmag : (GenParameters.Int63 p).1 = 5) :
    ((((GenParameters.Int63 p).2).NextBool).1 = true → (p.NextInt64).1 = -5) ∧
    ((((GenParameters.Int63 p).2).NextBool).1 = false → (p.NextInt64).1 = 5) := by
  constructor <;> intro hb <;> simp [GenParameters.NextInt64, hmag, hb]

theorem nextInt64_magnitude_then_sign_witness :
    ((GenParameters.Int63 pMag5Even).1 = 5 ∧
      (((GenParameters.Int63 pMag5Even).2).NextBool).1 = true ∧
      (pMag5Even.NextInt64).1 = -5) ∧
    ((GenParameters.Int63 pMag5Odd).1 = 5 ∧
      (((GenParameters.Int63 pMag5Odd).2).NextBool).1 = false ∧
      (pMag5Odd.NextInt64).1 = 5) := by
  have h1 : (GenParameters.Int63 pMag5Even).1 = 5 := rfl
  have h2 : (((GenParameters.Int63 pMag5Even).2).NextBool).1 = true := rfl
  have h3 : (GenParameters.Int63 pMag5Odd).1 = 5 := rfl
  have h4 : (((GenParameters.Int63 pMag5Odd).2).NextBool).1 = false := rfl
  exact ⟨⟨h1, h2, (nextInt64_magnitude_then_sign pMag5Even h1).1 h2⟩,
    ⟨h3, h4, (nextInt64_magnitude_then_sign pMag5Odd h3).2 h4⟩⟩

/-- Claim C3, counterexample: the claim states that `NextInt64` can return
every int64 including `math.MinInt64 = -2^63`; in fact the magnitude drawn by
`Int63` lies in `[0, 2^63)`, so after optional negation `-2^63` is unreachable
for every state of the source. -/
theorem nextInt64_min_int64_unreachable :
    ¬ ∃ p : GenParameters, (p.NextInt64).1 = -(2 ^ 63) := by
  rintro ⟨p, hp⟩
  have hv : p.rngStream p.rngPos % 2 ^ 63 < 2 ^ 63 :=
    Nat.mod_lt _ (by norm_num)
  simp [GenParameters.NextInt64, GenParameters.NextBool, GenParameters.Int63] at hp
  split at hp <;> omega

/-- Claim C3, amended: `NextInt64` draws a magnitude in `[0, 2^63)` from the
source and applies a randomly chosen sign via `NextBool`; the reachable values
are exactly the int64 values other than `math.MinInt64`: for every `n` with
`-2^63 < n < 2^63` there is a state of the source for which `NextInt64`
returns `n` (and `-2^63` itself is never returned, per the counterexample). -/
theorem nextInt64_range_complete_except_min (n : Int)
    (h1 : -(2 ^ 63) < n) (h2 : n < 2 ^ 63) :
    ∃ p : GenParameters, (p.NextInt64).1 = n := by
  refine ⟨{ Size := 100, MaxShrinkCount := 1000,
            rngStream := fun i => if i = 0 then n.natAbs else if 0 ≤ n then 1 else 0,
            rngPos := 0 }, ?_⟩
  have habs : n.natAbs < 2 ^ 63 := by omega
  by_cases hn : 0 ≤ n
  · simp only [GenParameters.NextInt64, GenParameters.NextBool, GenParameters.Int63, hn]
    norm_num
    rw [abs_of_nonneg hn]
    omega
  · simp only [GenParameters.NextInt64, GenParameters.NextBool, GenParameters.Int63, hn]
    norm_num
    rw [abs_of_neg (by omega)]
    omega

theorem nextInt64_range_complete_except_min_witness :
    (-(2 ^ 63) : Int) < 2 ^ 63 - 1 ∧ ((2 ^ 63 - 1 : Int) < 2 ^ 63) ∧
    ∃ p : GenParameters, (p.NextInt64).1 = 2 ^ 63 - 1 :=
  ⟨by norm_num, by norm_num,
    nextInt64_range_complete_except_min (2 ^ 63 - 1) (by norm_num) (by norm_num)⟩

/-- Claim C4, counterexample: the claim quantifies over every generator `g`
and states that `g.SuchThat(p1).SuchThat(p2)` accepts `v` iff `p1(v) ∧ p2(v)`;
for a base generator whose result already carries an always-rejecting sieve
and always-true predicates `p1, p2`, the stacked sieve rejects the value `1`
even though `p1(1) ∧ p2(1)` holds. -/
theorem suchThat_sieve_conjunction_false :
    GenResult.sieveAccepts
        (((genSieved.SuchThatGen (fun _ => true)).SuchThatGen (fun _ => true)) pZero).1
        (GoVal.int 1) = false ∧
    ((fun (_ : GoVal) => true) (GoVal.int 1) && (fun (_ : GoVal) => true) (GoVal.int 1)) = true :=
  ⟨rfl, rfl⟩

/-- Claim C4, amended: `SuchThat` conjoins its predicate with any pre-existing
sieve of the base result, so `g.SuchThat(p1).SuchThat(p2)` accepts `v` iff the
base result's sieve (when present) accepts `v` and both `p1(v)` and `p2(v)`
hold; when the base result carries no sieve this is exactly `p1(v) ∧ p2(v)`. -/
theorem suchThat_sieve_conjunction_with_base (g : Gen) (p1 p2 : GoVal → Bool)
    (par : GenParameters) (v : GoVal) :
    GenResult.sieveAccepts (((g.SuchThatGen p1).SuchThatGen p2) par).1 v =
      (GenResult.sieveAccepts (g par).1 v && p1 v && p2 v) := by
  cases hs : (g par).1.Sieve with
  | none => simp [Gen.SuchThatGen, GenResult.sieveAccepts, hs]
  | some s0 => simp [Gen.SuchThatGen, GenResult.sieveAccepts, hs, Bool.and_assoc]

/-- Claim C10: `CombineGens` of an empty list never fails: for every
parameters object the result carries the empty sequence as its value, an empty
label list, and a sieve accepting that empty sequence; retrieval succeeds and
the parameters (in particular the random source) are untouched. -/
theorem combineGens_empty_never_fails (p : GenParameters) :
    (CombineGens [] p).1.result = some (GoVal.slice []) ∧
    (CombineGens [] p).1.Labels = [] ∧
    GenResult.sieveAccepts (CombineGens [] p).1 (GoVal.slice []) = true ∧
    (CombineGens [] p).1.Retrieve = some (GoVal.slice []) ∧
    (CombineGens [] p).2 = p :=
  ⟨rfl, rfl, rfl, rfl, rfl⟩

/-- Claim C6: when the inner generation of `g.Map(f)` succeeds with value `x`
(its result is retrievable), the mapped result carries value `f(x)`, declared
type equal to `f`'s return type (the `outType` captured from
`mapperType.Out(0)`), the inner labels unchanged, no sieve, and the canonical
no-op shrinker; when the inner generation fails, the failure propagates as an
absent-value result with the same labels and the declared type set to `f`'s
return type.  In both cases the parameters are exactly the ones the inner call
advanced. -/
theorem map_spec (g : Gen) (mapper : GoVal → GoVal) (outType : GoType)
    (par : GenParameters) :
    (∀ x, ((g par).1).RetrieveAsValue = some x →
      (Gen.MapGen g mapper outType par).1.result = some (mapper x) ∧
      (Gen.MapGen g mapper outType par).1.ResultType = outType ∧
      (Gen.MapGen g mapper outType par).1.Labels = (g par).1.Labels ∧
      (Gen.MapGen g mapper outType par).1.Sieve = none ∧
      (Gen.MapGen g mapper outType par).1.Shrinker = some NoShrinker ∧
      (Gen.MapGen g mapper outType par).2 = (g par).2) ∧
    (((g par).1).RetrieveAsValue = none →
      (Gen.MapGen g mapper outType par).1.result = none ∧
      (Gen.MapGen g mapper outType par).1.ResultType = outType ∧
      (Gen.MapGen g mapper outType par).1.Labels = (g par).1.Labels ∧
      (Gen.MapGen g mapper outType par).1.Sieve = none ∧
      (Gen.MapGen g mapper outType par).1.Shrinker = some NoShrinker ∧
      (Gen.MapGen g mapper outType par).2 = (g par).2) := by
  constructor
  · intro x hx
    simp [Gen.MapGen, hx]
  · intro hx
    simp [Gen.MapGen, hx]

theorem map_spec_witness :
    ((genConst (GoVal.int 2) ["a"] pZero).1.RetrieveAsValue = some (GoVal.int 2) ∧
      (Gen.MapGen (genConst (GoVal.int 2) ["a"]) incInt GoType.int64 pZero).1.result =
        some (incInt (GoVal.int 2))) ∧
    ((genFail ["b"] pZero).1.RetrieveAsValue = none ∧
      (Gen.MapGen (genFail ["b"]) incInt GoType.int64 pZero).1.result = none) :=
  ⟨⟨rfl, ((map_spec (genConst (GoVal.int 2) ["a"]) incInt GoType.int64 pZero).1
      (GoVal.int 2) rfl).1⟩,
    ⟨rfl, ((map_spec (genFail ["b"]) incInt GoType.int64 pZero).2 rfl).1⟩⟩

/-- Claim C7: when the base generation of `g.FlatMap(f, t)` succeeds with
value `v`, the continuation-produced generator `f v` is invoked with the same
(advanced) parameters and its result is returned directly — so sieve, shrinker
and labels are whatever that generator assigns; when the base generation
fails, the result is an absent-value result whose declared type is the
supplied `t` and whose labels are the base result's labels. -/
theorem flatMap_spec (g : Gen) (f : GoVal → Gen) (resultType : GoType)
    (par : GenParameters) :
    (∀ v, ((g par).1).Retrieve = some v →
      Gen.FlatMap g f resultType par = f v ((g par).2)) ∧
    (((g par).1).Retrieve = none →
      (Gen.FlatMap g f resultType par).1.result = none ∧
      (Gen.FlatMap g f resultType par).1.ResultType = resultType ∧
      (Gen.FlatMap g f resultType par).1.Labels = (g par).1.Labels ∧
      (Gen.FlatMap g f resultType par).1.Sieve = none ∧
      (Gen.FlatMap g f resultType par).1.Shrinker = some NoShrinker ∧
      (Gen.FlatMap g f resultType par).2 = (g par).2) := by
  constructor
  · intro v hv
    simp [Gen.FlatMap, hv]
  · intro hv
    simp [Gen.FlatMap, hv]

theorem flatMap_spec_witness :
    (((genConst (GoVal.int 1) ["a"] pZero).1).Retrieve = some (GoVal.int 1) ∧
      Gen.FlatMap (genConst (GoVal.int 1) ["a"]) (fun v => genConst v ["c"]) GoType.int64 pZero =
        genConst (GoVal.int 1) ["c"] ((genConst (GoVal.int 1) ["a"] pZero).2)) ∧
    (((genFail ["b"] pZero).1).Retrieve = none ∧
      (Gen.FlatMap (genFail ["b"]) (fun v => genConst v ["c"]) GoType.int64 pZero).1.Labels = ["b"]) :=
  ⟨⟨rfl, (flatMap_spec (genConst (GoVal.int 1) ["a"]) (fun v => genConst v ["c"])
      GoType.int64 pZero).1 (GoVal.int 1) rfl⟩,
    ⟨rfl, ((flatMap_spec (genFail ["b"]) (fun v => genConst v ["c"])
      GoType.int64 pZero).2 rfl).2.2.1⟩⟩

/-- The combined sieve checks components pairwise: it agrees with walking the
zip of sieves and component values, accepting wherever a position has no
sieve. -/
theorem sieveCheck_eq_zip_all (sieves : List (Option (GoVal → Bool))) (ws : List GoVal) :
    sieveCheck sieves ws =
      ((sieves.zip ws).all fun pr =>
        match pr.1 with
        | none => true
        | some sv => sv pr.2) := by
  induction sieves generalizing ws with
  | nil => cases ws <;> simp [sieveCheck]
  | cons s rest ih =>
      cases ws with
      | nil => cases s <;> simp [sieveCheck]
      | cons w wsx => cases s <;> simp [sieveCheck, ih]

/-- When every generator in the list succeeds (sequentially, with threaded
parameters), `combineLoop` extends its accumulators with the per-generator
labels, values, shrinkers and sieves in order and builds the aggregate
result. -/
theorem combineLoop_success (gens : List Gen) (p : GenParameters) (vs : List GoVal)
    (h : retrieveAll (runGens gens p).1 = some vs) (labels : List String)
    (values : List GoVal) (shrinkers : List (Option Shrinker))
    (sieves : List (Option (GoVal → Bool))) :
    combineLoop gens p labels values shrinkers sieves =
      ({ result := some (GoVal.slice (values ++ vs)),
         Labels := labels ++ allLabels (runGens gens p).1,
         ResultType := GoType.sliceOfInterface,
         Sieve := some (combinedSieve (sieves ++ (runGens gens p).1.map GenResult.Sieve)),
         Shrinker := some (CombineShrinker
           (shrinkers ++ (runGens gens p).1.map GenResult.Shrinker)) },
       (runGens gens p).2) := by
  induction gens generalizing p vs labels values shrinkers sieves with
  | nil =>
      simp only [runGens, retrieveAll, Option.some.injEq] at h
      subst h
      simp [combineLoop, runGens, allLabels]
  | cons g gs ih =>
      have hrun : runGens (g :: gs) p =
          ((g p).1 :: (runGens gs (g p).2).1, (runGens gs (g p).2).2) := by
        simp [runGens]
      rw [hrun] at h ⊢
      cases hr : ((g p).1).Retrieve with
      | none => rw [retrieveAll, hr] at h; simp at h
      | some v =>
          rw [retrieveAll, hr] at h
          cases hrest : retrieveAll (runGens gs (g p).2).1 with
          | none => rw [hrest] at h; simp at h
          | some vs' =>
              rw [hrest] at h
              simp only [Option.some.injEq] at h
              subst h
              simp only [combineLoop, hr]
              rw [ih (g p).2 vs' hrest]
              simp [allLabels, List.append_assoc]

/-- When a prefix of the generator list succeeds and the next generator's
result is not retrievable, `combineLoop` stops there: it returns the
absent-value result carrying only the failing result's labels, with the
parameters advanced exactly through the failing generator (the remaining
generators are never invoked). -/
theorem combineLoop_failure (pre : List Gen) (gbad : Gen) (rest : List Gen)
    (p : GenParameters) (vs : List GoVal)
    (hpre : retrieveAll (runGens pre p).1 = some vs)
    (hbad : ((gbad ((runGens pre p).2)).1).Retrieve = none)
    (labels : List String) (values : List GoVal)
    (shrinkers : List (Option Shrinker)) (sieves : List (Option (GoVal → Bool))) :
    combineLoop (pre ++ gbad :: rest) p labels values shrinkers sieves =
      ({ result := none, Labels := (gbad ((runGens pre p).2)).1.Labels,
         ResultType := GoType.sliceOfInterface, Sieve := none,
         Shrinker := some NoShrinker }, (gbad ((runGens pre p).2)).2) := by
  induction pre generalizing p vs labels values shrinkers sieves with
  | nil =>
      simp only [runGens] at hbad ⊢
      simp [combineLoop, hbad]
  | cons g gs ih =>
      have hrun : runGens (g :: gs) p =
          ((g p).1 :: (runGens gs (g p).2).1, (runGens gs (g p).2).2) := by
        simp [runGens]
      rw [hrun] at hpre hbad ⊢
      cases hr : ((g p).1).Retrieve with
      | none => rw [retrieveAll, hr] at hpre; simp at hpre
      | some v =>
          rw [retrieveAll, hr] at hpre
          cases hrest : retrieveAll (runGens gs (g p).2).1 with
          | none => rw [hrest] at hpre; simp at hpre
          | some vs' =>
              simp only [List.cons_append, combineLoop, hr]
              exact ih (g p).2 vs' hrest hbad _ _ _ _

/-- Claim C5: for `CombineGens` with every sub-generator succeeding, each
generator is invoked in list order on the threaded parameters (the final
parameters equal those of the sequential reference run `runGens`); the value
is the ordered sequence of the per-generator values; the labels are the
concatenation of all sub-generators' labels in invocation order; the shrinker
is the combined shrinker over the per-position shrinkers; and the sieve is the
position-wise conjunction: an aggregate is accepted exactly when every
component sieve that is present accepts the corresponding component value. -/
theorem combineGens_success_spec (gens : List Gen) (p : GenParameters)
    (vs : List GoVal) (h : retrieveAll (runGens gens p).1 = some vs)
    (ws : List GoVal) :
    (CombineGens gens p).1.result = some (GoVal.slice vs) ∧
    (CombineGens gens p).1.Labels = allLabels (runGens gens p).1 ∧
    (CombineGens gens p).1.Shrinker =
      some (CombineShrinker ((runGens gens p).1.map GenResult.Shrinker)) ∧
    (CombineGens gens p).1.Sieve =
      some (combinedSieve ((runGens gens p).1.map GenResult.Sieve)) ∧
    (CombineGens gens p).2 = (runGens gens p).2 ∧
    GenResult.sieveAccepts (CombineGens gens p).1 (GoVal.slice ws) =
      ((((runGens gens p).1.map GenResult.Sieve).zip ws).all fun pr =>
        match pr.1 with
        | none => true
        | some sv => sv pr.2) := by
  have hmain := combineLoop_success gens p vs h [] [] [] []
  have hcg : CombineGens gens p = combineLoop gens p [] [] [] [] := rfl
  rw [hcg, hmain]
  refine ⟨rfl, by simp [allLabels], by simp, by simp, rfl, ?_⟩
  simp [GenResult.sieveAccepts, combinedSieve, sieveCheck_eq_zip_all]

theorem combineGens_success_spec_witness :
    retrieveAll (runGens [genConst (GoVal.int 1) ["a"], genConst (GoVal.int 2) ["b"]] pZero).1 =
      some [GoVal.int 1, GoVal.int 2] ∧
    (CombineGens [genConst (GoVal.int 1) ["a"], genConst (GoVal.int 2) ["b"]] pZero).1.result =
      some (GoVal.slice [GoVal.int 1, GoVal.int 2]) ∧
    (CombineGens [genConst (GoVal.int 1) ["a"], genConst (GoVal.int 2) ["b"]] pZero).1.Labels =
      allLabels (runGens [genConst (GoVal.int 1) ["a"], genConst (GoVal.int 2) ["b"]] pZero).1 := by
  have h : retrieveAll
      (runGens [genConst (GoVal.int 1) ["a"], genConst (GoVal.int 2) ["b"]] pZero).1 =
      some [GoVal.int 1, GoVal.int 2] := rfl
  have hc := combineGens_success_spec
    [genConst (GoVal.int 1) ["a"], genConst (GoVal.int 2) ["b"]] pZero
    [GoVal.int 1, GoVal.int 2] h []
  exact ⟨h, hc.1, hc.2.1⟩

/-- Claim C1, counterexample: the claim states that for `combine(gA, gB)` with
`gA` succeeding (label "a") and `gB` always failing (label "b"), the
absent-value result's labels are `gA`'s labels followed by `gB`'s labels,
i.e. `["a", "b"]`; the code instead puts only the failing sub-generator's
labels `["b"]` into the failure result. -/
theorem combineGens_failure_label_accumulation_false :
    (CombineGens [genConst (GoVal.int 1) ["a"], genFail ["b"]] pZero).1.result = none ∧
    (CombineGens [genConst (GoVal.int 1) ["a"], genFail ["b"]] pZero).1.Labels = ["b"] ∧
    (["b"] : List String) ≠ ["a", "b"] :=
  ⟨rfl, rfl, by decide⟩

/-- Claim C1, amended: if any sub-generator of `CombineGens` fails, the whole
combination fails immediately with an absent-value result and no partial
aggregate — the remaining sub-generators are never invoked (the parameters
advance exactly through the failing one) — and the absent result carries the
labels of the failing sub-generator only: labels of the earlier, successful
sub-generators are discarded.  In particular `combine(gA, gB)` with `gA`
succeeding and `gB` always failing yields an absent-value result whose labels
equal `gB`'s labels. -/
theorem combineGens_failure_short_circuit (pre : List Gen) (gbad : Gen)
    (rest : List Gen) (p : GenParameters) (vs : List GoVal)
    (hpre : retrieveAll (runGens pre p).1 = some vs)
    (hbad : ((gbad ((runGens pre p).2)).1).Retrieve = none) :
    (CombineGens (pre ++ gbad :: rest) p).1.result = none ∧
    (CombineGens (pre ++ gbad :: rest) p).1.Labels =
      (gbad ((runGens pre p).2)).1.Labels ∧
    (CombineGens (pre ++ gbad :: rest) p).1.Sieve = none ∧
    (CombineGens (pre ++ gbad :: rest) p).1.Shrinker = some NoShrinker ∧
    (CombineGens (pre ++ gbad :: rest) p).2 = (gbad ((runGens pre p).2)).2 := by
  have hmain := combineLoop_failure pre gbad rest p vs hpre hbad [] [] [] []
  have hcg : CombineGens (pre ++ gbad :: rest) p =
      combineLoop (pre ++ gbad :: rest) p [] [] [] [] := rfl
  rw [hcg, hmain]
  exact ⟨rfl, rfl, rfl, rfl, rfl⟩

theorem combineGens_failure_short_circuit_witness :
    retrieveAll (runGens [genConst (GoVal.int 1) ["a"]] pZero).1 = some [GoVal.int 1] ∧
    ((genFail ["b"] ((runGens [genConst (GoVal.int 1) ["a"]] pZero).2)).1).Retrieve = none ∧
    (CombineGens [genConst (GoVal.int 1) ["a"], genFail ["b"]] pZero).1.Labels =
      (genFail ["b"] ((runGens [genConst (GoVal.int 1) ["a"]] pZero).2)).1.Labels := by
  have h1 : retrieveAll (runGens [genConst (GoVal.int 1) ["a"]] pZero).1 =
      some [GoVal.int 1] := rfl
  have h2 : ((genFail ["b"] ((runGens [genConst (GoVal.int 1) ["a"]] pZero).2)).1).Retrieve =
      none := rfl
  exact ⟨h1, h2, (combineGens_failure_short_circuit [genConst (GoVal.int 1) ["a"]]
    (genFail ["b"]) [] pZero [GoVal.int 1] h1 h2).2.1⟩

/-- Reading back the mutated address yields the updated cell. -/
theorem Store.read_mutate_self (s : Store) (a : Nat) (f : GenResult → GenResult) :
    (s.mutate a f).read a = (s.read a).map f := by
  cases h : s.cells[a]? with
  | none => simp [Store.mutate, Store.read, List.get?_eq_getElem?, h]
  | some r =>
      have ha : a < s.cells.length := by
        by_contra hc
        rw [List.getElem?_eq_none (by omega)] at h
        cases h
      simp [Store.mutate, Store.read, List.get?_eq_getElem?, h,
        List.getElem?_set_eq_of_lt _ ha]

/-- In-place mutation allocates nothing: the store size is unchanged. -/
theorem Store.mutate_length (s : Store) (a : Nat) (f : GenResult → GenResult) :
    (s.mutate a f).cells.length = s.cells.length := by
  unfold Store.mutate
  cases h : s.cells.get? a <;> simp

/-- A store-model leaf generator: allocate a fresh successful result
(value 1, label "a") and return its address. -/
def genRefA : GenRef :=
  fun genParams s =>
    let ns := s.alloc
      { result := some (GoVal.int 1), Labels := ["a"],
        ResultType := GoType.int64, Sieve := none, Shrinker := none }
    (ns.1, genParams, ns.2)

/-- A store-model leaf generator: allocate a fresh failing result
(absent value, label "b") and return its address. -/
def genRefFail : GenRef :=
  fun genParams s =>
    let ns := s.alloc
      { result := none, Labels := ["b"],
        ResultType := GoType.int64, Sieve := none, Shrinker := none }
    (ns.1, genParams, ns.2)

/-- A store-model continuation for `FlatMap` fixtures. -/
def refCont : GoVal → GenRef := fun _ => genRefA

/-- The empty store. -/
def store0 : Store := ⟨[]⟩

/-- Claim C2, counterexample: the claim states that every combinator "never
mutates a GenParameters or GenResult object received from an inner call —
always returns a freshly constructed result, distinct from the inner result".
For `WithLabel` over a leaf generator that allocates its result at address 0
of an empty store, the derived generator returns that same address 0, the
store still holds exactly one cell (nothing fresh was allocated), and the
inner result object itself now carries the appended label — it was mutated in
place. -/
theorem withLabel_fresh_result_false :
    (Gen.WithLabelRef genRefA "x" pZero store0).1 = (genRefA pZero store0).1 ∧
    ((Gen.WithLabelRef genRefA "x" pZero store0).2.2).cells.length =
      ((genRefA pZero store0).2.2).cells.length ∧
    ((((Gen.WithLabelRef genRefA "x" pZero store0).2.2).read
        (genRefA pZero store0).1).getD emptyResult).Labels = ["a", "x"] :=
  ⟨rfl, rfl, rfl⟩

/-- Claim C2, amended: no combinator mutates the `GenParameters` it receives,
and `Map` and `CombineGens` always return freshly constructed results (as does
`FlatMap` when the base generation fails); but `WithLabel`, `SuchThat` and
`WithShrinker` update one field of the inner result in place and return that
same result object (same address, no new allocation), and `FlatMap` on
success returns the continuation-produced generator's result directly. -/
theorem combinator_result_allocation :
    (∀ (g : GenRef) (label : String) (p : GenParameters) (s : Store),
      (Gen.WithLabelRef g label p s).1 = (g p s).1 ∧
      (Gen.WithLabelRef g label p s).2.1 = (g p s).2.1 ∧
      ((Gen.WithLabelRef g label p s).2.2).cells.length = ((g p s).2.2).cells.length ∧
      ((Gen.WithLabelRef g label p s).2.2).read (g p s).1 =
        (((g p s).2.2).read (g p s).1).map (labelUpdate label)) ∧
    (∀ (g : GenRef) (sieve : GoVal → Bool) (p : GenParameters) (s : Store),
      (Gen.SuchThatRef g sieve p s).1 = (g p s).1 ∧
      (Gen.SuchThatRef g sieve p s).2.1 = (g p s).2.1 ∧
      ((Gen.SuchThatRef g sieve p s).2.2).cells.length = ((g p s).2.2).cells.length ∧
      ((Gen.SuchThatRef g sieve p s).2.2).read (g p s).1 =
        (((g p s).2.2).read (g p s).1).map (suchThatUpdate sieve)) ∧
    (∀ (g : GenRef) (shrinker : Option Shrinker) (p : GenParameters) (s : Store),
      (Gen.WithShrinkerRef g shrinker p s).1 = (g p s).1 ∧
      (Gen.WithShrinkerRef g shrinker p s).2.1 = (g p s).2.1 ∧
      ((Gen.WithShrinkerRef g shrinker p s).2.2).cells.length = ((g p s).2.2).cells.length ∧
      ((Gen.WithShrinkerRef g shrinker p s).2.2).read (g p s).1 =
        (((g p s).2.2).read (g p s).1).map (shrinkerUpdate shrinker)) ∧
    (∀ (g : GenRef) (mapper : GoVal → GoVal) (outType : GoType)
        (p : GenParameters) (s : Store),
      (Gen.MapRef g mapper outType p s).1 = ((g p s).2.2).cells.length ∧
      (Gen.MapRef g mapper outType p s).2.1 = (g p s).2.1 ∧
      ((Gen.MapRef g mapper outType p s).2.2).cells.length =
        ((g p s).2.2).cells.length + 1) ∧
    (∀ (g : GenRef) (f : GoVal → GenRef) (t : GoType) (p : GenParameters) (s : Store),
      (∀ v, ((((g p s).2.2).read (g p s).1).getD emptyResult).Retrieve = some v →
        Gen.FlatMapRef g f t p s = f v (g p s).2.1 (g p s).2.2) ∧
      (((((g p s).2.2).read (g p s).1).getD emptyResult).Retrieve = none →
        (Gen.FlatMapRef g f t p s).1 = ((g p s).2.2).cells.length ∧
        ((Gen.FlatMapRef g f t p s).2.2).cells.length =
          ((g p s).2.2).cells.length + 1)) ∧
    (∀ (gens : List GenRef) (p : GenParameters) (s : Store),
      (CombineGensRef gens p s).1 =
        ((combineLoopRef gens p s [] [] [] []).2.2).cells.length ∧
      ((CombineGensRef gens p s).2.2).cells.length =
        ((combineLoopRef gens p s [] [] [] []).2.2).cells.length + 1) := by
  refine ⟨?_, ?_, ?_, ?_, ?_, ?_⟩
  · intro g label p s
    refine ⟨rfl, rfl, ?_, ?_⟩
    · exact Store.mutate_length _ _ _
    · exact Store.read_mutate_self _ _ _
  · intro g sieve p s
    refine ⟨rfl, rfl, ?_, ?_⟩
    · exact Store.mutate_length _ _ _
    · exact Store.read_mutate_self _ _ _
  · intro g shrinker p s
    refine ⟨rfl, rfl, ?_, ?_⟩
    · exact Store.mutate_length _ _ _
    · exact Store.read_mutate_self _ _ _
  · intro g mapper outType p s
    cases hx : ((((g p s).2.2).read (g p s).1).getD emptyResult).RetrieveAsValue <;>
      simp [Gen.MapRef, Store.alloc, hx]
  · intro g f t p s
    constructor
    · intro v hv
      simp [Gen.FlatMapRef, hv]
    · intro hv
      simp [Gen.FlatMapRef, Store.alloc, hv]
  · intro gens p s
    exact ⟨rfl, by simp [CombineGensRef, Store.alloc]⟩

theorem combinator_result_allocation_witness :
    (((((genRefA pZero store0).2.2).read (genRefA pZero store0).1).getD
        emptyResult).Retrieve = some (GoVal.int 1) ∧
      Gen.FlatMapRef genRefA refCont GoType.int64 pZero store0 =
        refCont (GoVal.int 1) (genRefA pZero store0).2.1 (genRefA pZero store0).2.2) ∧
    (((((genRefFail pZero store0).2.2).read (genRefFail pZero store0).1).getD
        emptyResult).Retrieve = none ∧
      (Gen.FlatMapRef genRefFail refCont GoType.int64 pZero store0).1 =
        ((genRefFail pZero store0).2.2).cells.length) := by
  have h1 : ((((genRefA pZero store0).2.2).read (genRefA pZero store0).1).getD
      emptyResult).Retrieve = some (GoVal.int 1) := rfl
  have h2 : ((((genRefFail pZero store0).2.2).read (genRefFail pZero store0).1).getD
      emptyResult).Retrieve = none := rfl
  exact ⟨⟨h1, (combinator_result_allocation.2.2.2.2.1 genRefA refCont
      GoType.int64 pZero store0).1 (GoVal.int 1) h1⟩,
    ⟨h2, ((combinator_result_allocation.2.2.2.2.1 genRefFail refCont
      GoType.int64 pZero store0).2 h2).1⟩⟩

/-- Claim C8: for `SuchThat` and `Map`, a malformed function argument (not a
func, wrong parameter count, parameter type not assignable from the base
generator's probed declared result type, wrong return count, or — for
`SuchThat` — a non-boolean return kind) is detected when the combinator is
constructed and reported as a panic (the `.error` arm, so no derived generator
exists and the error can never surface as a generation-time failure);
construction succeeds exactly when none of these defects is present, and the
checks perform at most a single probe invocation of the base generator with
the default parameters object `d`. -/
theorem construction_checks_spec (g : Gen) (d : GenParameters) (f : GoFuncVal) :
    (exceptOk (Gen.SuchThat g d f).1 = true ↔
      (f.kind = GoKind.funcK ∧ f.inTypes.length = 1 ∧
        AssignableTo ((g d).1.ResultType) (f.inTypes.headD GoType.interfaceEmpty) = true ∧
        f.outTypes.length = 1 ∧
        (f.outTypes.headD GoType.interfaceEmpty).kind = GoKind.boolK)) ∧
    (Gen.SuchThat g d f).2 ≤ 1 ∧
    (exceptOk (Gen.Map g d f).1 = true ↔
      (f.kind = GoKind.funcK ∧ f.inTypes.length = 1 ∧
        AssignableTo ((g d).1.ResultType) (f.inTypes.headD GoType.interfaceEmpty) = true ∧
        f.outTypes.length = 1)) ∧
    (Gen.Map g d f).2 ≤ 1 := by
  refine ⟨?_, ?_, ?_, ?_⟩ <;>
    simp only [Gen.SuchThat, Gen.Map] <;>
    split_ifs <;>
    simp_all [exceptOk]
